import Mathlib

/-!
Verification of the LE HCI adapter (`src/hci/adapters/le.rs`) of the `btle`
crate.  The file shallowly embeds the adapter layer: each command method is a
pure function of its arguments and of the adapter response it would receive,
returning also the list of commands sent to the transport; the event-stream
combinators are embedded as pure functions on lists of stream items.
Types supplied by the external codec library (event packets, status bytes,
report structures) are modelled from the spec where noted.
-/

namespace Btle

/-- Modelled from the spec: the codec library's pack/unpack error type is
external; we keep only an opaque numeric tag. -/
structure PackError where
  code : Nat
deriving DecidableEq, Repr

/-- Modelled from the spec: stream errors wrap codec errors arising while
decoding commands or events (`crate::hci::StreamError`, external). -/
inductive StreamErr where
  | commandError (e : PackError)
  | eventError (e : PackError)
deriving DecidableEq, Repr

/-- Modelled from the spec: `adapter::Error` (external).  The spec's error
taxonomy: `BadParameter` for local precondition violations,
`ControllerStatusError` carrying the raw status byte, transport failures,
and decode failures surfaced through `StreamError`. -/
inductive AdapterError where
  | badParameter
  | controllerStatus (status : Nat)
  | transportError (code : Nat)
  | streamError (e : StreamErr)
deriving DecidableEq, Repr

/-- Modelled from the spec: maximum advertising payload length in bytes
(`crate::le::advertisement::MAX_ADV_LEN`, external; the source doc comment
states the value 31). -/
def MAX_ADV_LEN : Nat := 31

/-- Modelled from the spec: number of bytes returned by the LE Rand command
(`crate::hci::le::random::RAND_LEN`, external; the source doc comment states
the value 8). -/
def RAND_LEN : Nat := 8

/-- Modelled from the spec: the HCI LE-Meta event code that wraps all LE
sub-events (`EventCode::LEMeta`, external). -/
def leMetaCode : Nat := 0x3E

/-- Modelled from the spec: an event packet is an event code plus a
variable-length payload buffer (`crate::hci::event::EventPacket`, external). -/
structure EventPacket where
  event_code : Nat
  payload : List Nat
deriving DecidableEq, Repr

/-- Modelled from the spec: a raw LE-Meta sub-event, distinguished by a meta
sub-code, with its own payload (`crate::hci::le::RawMetaEvent`, external). -/
structure RawMetaEvent where
  subcode : Nat
  payload : List Nat
deriving DecidableEq, Repr

/-- Modelled from the spec: one decoded advertisement observation
(`crate::le::report::ReportInfo`, external): PDU event type, address type,
48-bit address, 0-31 bytes of advertising data, optional RSSI. -/
structure ReportInfo where
  event_type : Nat
  address_type : Nat
  address : Nat
  data : List Nat
  rssi : Option Int
deriving DecidableEq, Repr

/-- Modelled from the spec: a decoded Advertising Report collection holding
the ordered sub-reports bundled in one controller event
(`crate::hci::le::report::AdvertisingReport`, external). -/
structure AdvertisingReport where
  reports : List ReportInfo
deriving DecidableEq, Repr

/-- Modelled from the spec: advertising parameter struct, an opaque
pass-through payload interpreted only by the external codec. -/
structure AdvertisingParameters where
  raw : List Nat
deriving DecidableEq, Repr

/-- Modelled from the spec: scan parameter struct, an opaque pass-through
payload interpreted only by the external codec. -/
structure ScanParameters where
  raw : List Nat
deriving DecidableEq, Repr

/-- The typed commands `LEAdapter` sends through `Adapter::send_command`,
one constructor per command constructed in `le.rs`. -/
inductive Command where
  | readAdvertisingChannelTxPower
  | setScanEnable (is_enabled : Bool) (filter_duplicates : Bool)
  | setScanParameters (p : ScanParameters)
  | setAdvertisingEnable (is_enabled : Bool)
  | setAdvertisingParameters (p : AdvertisingParameters)
  | rand
  | setAdvertisingData (data : List Nat)
deriving DecidableEq, Repr

/-- Modelled from the spec: `Status::error()` (external): status byte zero
means success, any other value is a controller-defined error code surfaced
verbatim. -/
def statusError (status : Nat) : Except AdapterError Unit :=
  if status = 0 then Except.ok () else Except.error (AdapterError.controllerStatus status)

/-- Modelled from the spec: a command response carrying only a status byte
(the response type of the unit-returning commands). -/
structure StatusResponse where
  status : Nat
deriving DecidableEq, Repr

/-- Modelled from the spec: the `ReadAdvertisingChannelTxPower` response:
status byte plus the TX power level in dBm. -/
structure TxPowerResponse where
  status : Nat
  power_level : Int
deriving DecidableEq, Repr

/-- Modelled from the spec: the `Rand` response: status byte plus exactly
`RAND_LEN` random bytes (the Rust response field has type `[u8; RAND_LEN]`,
so the length is enforced by the type). -/
structure RandResponse where
  status : Nat
  random_bytes : List Nat
  random_bytes_len : random_bytes.length = RAND_LEN

namespace LEAdapter

/-!
Each command method of `impl LEAdapter` is embedded as a pure function.  The
adapter's `send_command` round trip is represented by passing in the
`Except`-valued response the transport would deliver for the one command the
method sends; the function returns the method's result paired with the list
of commands actually handed to `send_command` (the transport transcript).
-/

/-- `LEAdapter::get_advertising_tx_power`: send `ReadAdvertisingChannelTxPower`,
check the status, project out `power_level`. -/
def get_advertising_tx_power (resp : Except AdapterError TxPowerResponse) :
    Except AdapterError Int × List Command :=
  (match resp with
   | Except.error e => Except.error e
   | Except.ok r =>
     match statusError r.status with
     | Except.error e => Except.error e
     | Except.ok _ => Except.ok r.power_level,
   [Command.readAdvertisingChannelTxPower])

/-- `LEAdapter::set_scan_enable`: send `SetScanEnable`, check the status. -/
def set_scan_enable (resp : Except AdapterError StatusResponse)
    (is_enabled : Bool) (filter_duplicates : Bool) :
    Except AdapterError Unit × List Command :=
  (match resp with
   | Except.error e => Except.error e
   | Except.ok r => statusError r.status,
   [Command.setScanEnable is_enabled filter_duplicates])

/-- `LEAdapter::set_scan_parameters`: send `SetScanParameters`, check the
status. -/
def set_scan_parameters (resp : Except AdapterError StatusResponse)
    (scan_parameters : ScanParameters) :
    Except AdapterError Unit × List Command :=
  (match resp with
   | Except.error e => Except.error e
   | Except.ok r => statusError r.status,
   [Command.setScanParameters scan_parameters])

/-- `LEAdapter::set_advertising_enable`: send `SetAdvertisingEnable`, check
the status. -/
def set_advertising_enable (resp : Except AdapterError StatusResponse)
    (is_enabled : Bool) :
    Except AdapterError Unit × List Command :=
  (match resp with
   | Except.error e => Except.error e
   | Except.ok r => statusError r.status,
   [Command.setAdvertisingEnable is_enabled])

/-- `LEAdapter::set_advertising_parameters`: send `SetAdvertisingParameters`,
check the status. -/
def set_advertising_parameters (resp : Except AdapterError StatusResponse)
    (parameters : AdvertisingParameters) :
    Except AdapterError Unit × List Command :=
  (match resp with
   | Except.error e => Except.error e
   | Except.ok r => statusError r.status,
   [Command.setAdvertisingParameters parameters])

/-- `LEAdapter::get_rand`: send `Rand`, check the status, project out
`random_bytes`. -/
def get_rand (resp : Except AdapterError RandResponse) :
    Except AdapterError (List Nat) × List Command :=
  (match resp with
   | Except.error e => Except.error e
   | Except.ok r =>
     match statusError r.status with
     | Except.error e => Except.error e
     | Except.ok _ => Except.ok r.random_bytes,
   [Command.rand])

/-- `LEAdapter::set_advertising_data`: if `data.len() > MAX_ADV_LEN` return
`BadParameter` before any transport interaction, otherwise send
`SetAdvertisingData` and check the status. -/
def set_advertising_data (resp : Except AdapterError StatusResponse)
    (data : List Nat) :
    Except AdapterError Unit × List Command :=
  if data.length > MAX_ADV_LEN then
    (Except.error AdapterError.badParameter, [])
  else
    (match resp with
     | Except.error e => Except.error e
     | Except.ok r => statusError r.status,
     [Command.setAdvertisingData data])

end LEAdapter

/-- Result of calling a Rust function that may panic before returning:
either a panic with its message, or a value. -/
inductive PanicOr (α : Type) where
  | panicked (msg : String)
  | value (v : α)
deriving DecidableEq, Repr

namespace LEAdapter

/-!
The event streams are embedded over a finite prefix of the transport's read
trace: `reads` lists, in order, the outcomes of successive
`Adapter::read_event` calls, and a stream is the list of items it yields
while consuming that prefix.
-/

/-- `LEAdapter::hci_event_stream`, as written: the body begins with
`todo!("set HCI Filter to AdvertisingReport")`, which panics before the
`unfold` stream below it is ever constructed. -/
def hci_event_stream (reads : List (Except AdapterError EventPacket)) :
    PanicOr (List (Except AdapterError EventPacket)) :=
  PanicOr.panicked "set HCI Filter to AdvertisingReport"

/-- The unreachable `futures_util::stream::unfold` body of
`LEAdapter::hci_event_stream`: every pull performs exactly one
`read_event` and yields its result verbatim (the closure always returns
`Some`, so the stream never terminates on its own; over a finite read
trace it yields one item per read, in order). -/
def hci_event_stream_unfold :
    List (Except AdapterError EventPacket) → List (Except AdapterError EventPacket)
  | [] => []
  | r :: rest => r :: hci_event_stream_unfold rest

/-- Modelled from the spec: the decode chain applied by
`advertising_report_stream` to an LE-Meta event's bytes:
`RawMetaEvent::try_from` then `AdvertisingReport::meta_unpack_packet`
(both external codec functions, passed in as parameters), each failure
wrapped as `StreamError::EventError` exactly as in the source. -/
def decodeLeMeta (metaDecode : List Nat → Except PackError RawMetaEvent)
    (reportDecode : RawMetaEvent → Except PackError AdvertisingReport)
    (payload : List Nat) : Except AdapterError AdvertisingReport :=
  match metaDecode payload with
  | Except.error e => Except.error (AdapterError.streamError (StreamErr.eventError e))
  | Except.ok meta =>
    match reportDecode meta with
    | Except.error e => Except.error (AdapterError.streamError (StreamErr.eventError e))
    | Except.ok rep => Except.ok rep

/-- The `filter_map` closure of `LEAdapter::advertising_report_stream`: an
upstream error passes through unchanged; a packet whose event code is not
LE-Meta is dropped (`None`); an LE-Meta packet is decoded, yielding either
the report collection or a decode-error item. -/
def advertising_report_filter
    (metaDecode : List Nat → Except PackError RawMetaEvent)
    (reportDecode : RawMetaEvent → Except PackError AdvertisingReport)
    (p : Except AdapterError EventPacket) :
    Option (Except AdapterError AdvertisingReport) :=
  match p with
  | Except.error e => some (Except.error e)
  | Except.ok event =>
    if event.event_code = leMetaCode then
      some (decodeLeMeta metaDecode reportDecode event.payload)
    else
      none

/-- The filter/decoder stage of `LEAdapter::advertising_report_stream`
applied to a list of upstream event items. -/
def advertising_report_stream_items
    (metaDecode : List Nat → Except PackError RawMetaEvent)
    (reportDecode : RawMetaEvent → Except PackError AdvertisingReport)
    (events : List (Except AdapterError EventPacket)) :
    List (Except AdapterError AdvertisingReport) :=
  events.filterMap (advertising_report_filter metaDecode reportDecode)

/-- The `map` closure of `LEAdapter::advertisement_stream`, before
`flatten`: an `Ok` report collection becomes the sub-stream of its
sub-reports each wrapped in `Ok`; an `Err` becomes a one-item sub-stream
holding that error. -/
def flattenStep (r : Except AdapterError AdvertisingReport) :
    List (Except AdapterError ReportInfo) :=
  match r with
  | Except.ok report => report.reports.map Except.ok
  | Except.error err => [Except.error err]

/-- The flattening stage of `LEAdapter::advertisement_stream` (`map` then
`flatten`) applied to a list of upstream report items. -/
def advertisement_stream_items :
    List (Except AdapterError AdvertisingReport) → List (Except AdapterError ReportInfo)
  | [] => []
  | r :: rest => flattenStep r ++ advertisement_stream_items rest

end LEAdapter

namespace Advertiser

/-!
`impl Advertiser for LEAdapter`: each trait method pins and delegates to the
inherent `LEAdapter` method of the same name with the same arguments.
-/

/-- `<LEAdapter as Advertiser>::set_advertising_enable`: delegates to
`LEAdapter::set_advertising_enable`. -/
def set_advertising_enable (resp : Except AdapterError StatusResponse)
    (is_enabled : Bool) :
    Except AdapterError Unit × List Command :=
  LEAdapter.set_advertising_enable resp is_enabled

/-- `<LEAdapter as Advertiser>::set_advertising_parameters`: delegates to
`LEAdapter::set_advertising_parameters`. -/
def set_advertising_parameters (resp : Except AdapterError StatusResponse)
    (advertisement_parameters : AdvertisingParameters) :
    Except AdapterError Unit × List Command :=
  LEAdapter.set_advertising_parameters resp advertisement_parameters

/-- `<LEAdapter as Advertiser>::set_advertising_data`: delegates to
`LEAdapter::set_advertising_data`. -/
def set_advertising_data (resp : Except AdapterError StatusResponse)
    (data : List Nat) :
    Except AdapterError Unit × List Command :=
  LEAdapter.set_advertising_data resp data

end Advertiser

/-- One invocation of a command method of `LEAdapter`, with its arguments. -/
inductive Operation where
  | getAdvertisingTxPower
  | setScanEnable (is_enabled : Bool) (filter_duplicates : Bool)
  | setScanParameters (p : ScanParameters)
  | setAdvertisingEnable (is_enabled : Bool)
  | setAdvertisingParameters (p : AdvertisingParameters)
  | getRand
  | setAdvertisingData (data : List Nat)

/-- The responses an adapter would deliver for each possible command, one
field per command kind; a run of an operation consults only the field for
the single command it sends. -/
structure AdapterResponses where
  tx_power : Except AdapterError TxPowerResponse
  scan_enable : Except AdapterError StatusResponse
  scan_params : Except AdapterError StatusResponse
  adv_enable : Except AdapterError StatusResponse
  adv_params : Except AdapterError StatusResponse
  rand : Except AdapterError RandResponse
  adv_data : Except AdapterError StatusResponse

/-- The result of one operation run, unifying the return types of the
command methods. -/
inductive RunResult where
  | unit (r : Except AdapterError Unit)
  | power (r : Except AdapterError Int)
  | bytes (r : Except AdapterError (List Nat))

/-- Dispatch one operation to the corresponding `LEAdapter` method, giving
its result and the command transcript. -/
def runOperation (op : Operation) (resp : AdapterResponses) :
    RunResult × List Command :=
  match op with
  | Operation.getAdvertisingTxPower =>
    let r := LEAdapter.get_advertising_tx_power resp.tx_power
    (RunResult.power r.1, r.2)
  | Operation.setScanEnable e d =>
    let r := LEAdapter.set_scan_enable resp.scan_enable e d
    (RunResult.unit r.1, r.2)
  | Operation.setScanParameters p =>
    let r := LEAdapter.set_scan_parameters resp.scan_params p
    (RunResult.unit r.1, r.2)
  | Operation.setAdvertisingEnable b =>
    let r := LEAdapter.set_advertising_enable resp.adv_enable b
    (RunResult.unit r.1, r.2)
  | Operation.setAdvertisingParameters p =>
    let r := LEAdapter.set_advertising_parameters resp.adv_params p
    (RunResult.unit r.1, r.2)
  | Operation.getRand =>
    let r := LEAdapter.get_rand resp.rand
    (RunResult.bytes r.1, r.2)
  | Operation.setAdvertisingData data =>
    let r := LEAdapter.set_advertising_data resp.adv_data data
    (RunResult.unit r.1, r.2)

/-- A meta-event decoder that rejects every payload; used as a concrete
codec instance in witnesses. -/
def mdFail : List Nat → Except PackError RawMetaEvent :=
  fun _ => Except.error ⟨0⟩

/-- A report decoder that rejects every meta event; used as a concrete codec
instance in witnesses. -/
def rdFail : RawMetaEvent → Except PackError AdvertisingReport :=
  fun _ => Except.error ⟨0⟩

/-- A concrete `Rand` response with success status and eight zero bytes. -/
def rr0 : RandResponse :=
  ⟨0, List.replicate 8 0, by decide⟩

/-- A concrete `Rand` response with failure status 1 and eight zero bytes. -/
def rr1 : RandResponse :=
  ⟨1, List.replicate 8 0, by decide⟩

/-- A concrete response table where every command succeeds with status 0. -/
def resp0 : AdapterResponses :=
  ⟨Except.ok ⟨0, 0⟩, Except.ok ⟨0⟩, Except.ok ⟨0⟩, Except.ok ⟨0⟩, Except.ok ⟨0⟩,
   Except.ok rr0, Except.ok ⟨0⟩⟩

theorem statusError_zero : statusError 0 = Except.ok () := rfl

theorem statusError_nonzero (s : Nat) (h : s ≠ 0) :
    statusError s = Except.error (AdapterError.controllerStatus s) := by
  unfold statusError
  rw [if_neg h]

/-- Claim C1: for every byte slice `data` with more than `MAX_ADV_LEN` (31)
bytes, `set_advertising_data` returns the `BadParameter` error and sends no
command to the adapter, whatever the adapter would have answered. -/
theorem set_advertising_data_oversized_no_transport
    (resp : Except AdapterError StatusResponse) (data : List Nat)
    (h : data.length > MAX_ADV_LEN) :
    LEAdapter.set_advertising_data resp data
      = (Except.error AdapterError.badParameter, []) := by
  unfold LEAdapter.set_advertising_data
  rw [if_pos h]

theorem set_advertising_data_oversized_no_transport_witness :
    (List.replicate 32 (0 : Nat)).length > MAX_ADV_LEN ∧
    LEAdapter.set_advertising_data (Except.ok ⟨0⟩) (List.replicate 32 (0 : Nat))
      = (Except.error AdapterError.badParameter, []) :=
  ⟨by decide,
   set_advertising_data_oversized_no_transport (Except.ok ⟨0⟩)
     (List.replicate 32 (0 : Nat)) (by decide)⟩

/-- Claim C2: for every `data` of length ≤ 31, `set_advertising_data` sends
exactly the one `SetAdvertisingData` command, and given a successful
transport round trip it returns a controller-status error carrying the
response's status byte iff that byte is non-zero, and unit success iff it
is zero. -/
theorem set_advertising_data_in_bounds
    (r : StatusResponse) (data : List Nat) (h : data.length ≤ MAX_ADV_LEN) :
    (LEAdapter.set_advertising_data (Except.ok r) data).2
        = [Command.setAdvertisingData data] ∧
    ((LEAdapter.set_advertising_data (Except.ok r) data).1
        = Except.error (AdapterError.controllerStatus r.status) ↔ r.status ≠ 0) ∧
    ((LEAdapter.set_advertising_data (Except.ok r) data).1 = Except.ok ()
        ↔ r.status = 0) := by
  have hnot : ¬ data.length > MAX_ADV_LEN := Nat.not_lt.mpr h
  unfold LEAdapter.set_advertising_data
  rw [if_neg hnot]
  by_cases hs : r.status = 0
  · refine ⟨rfl, ?_, ?_⟩
    · simp [hs, statusError_zero, Except.bind]
    · simp [hs, statusError_zero, Except.bind]
  · refine ⟨rfl, ?_, ?_⟩
    · simp [statusError_nonzero r.status hs, hs, Except.bind]
    · simp [statusError_nonzero r.status hs, hs, Except.bind]

theorem set_advertising_data_in_bounds_witness :
    ([(1 : Nat), 2, 3] : List Nat).length ≤ MAX_ADV_LEN ∧
    ((LEAdapter.set_advertising_data (Except.ok ⟨1⟩) [(1 : Nat), 2, 3]).2
        = [Command.setAdvertisingData [(1 : Nat), 2, 3]] ∧
     ((LEAdapter.set_advertising_data (Except.ok ⟨1⟩) [(1 : Nat), 2, 3]).1
        = Except.error (AdapterError.controllerStatus (StatusResponse.mk 1).status)
        ↔ (StatusResponse.mk 1).status ≠ 0) ∧
     ((LEAdapter.set_advertising_data (Except.ok ⟨1⟩) [(1 : Nat), 2, 3]).1
        = Except.ok () ↔ (StatusResponse.mk 1).status = 0)) :=
  ⟨by decide, set_advertising_data_in_bounds ⟨1⟩ [(1 : Nat), 2, 3] (by decide)⟩

/-- Claim C3: wherever a successfully decoded report collection with
sub-reports `R1..Rn` appears among the report-stream items, the flattening
stage of `advertisement_stream` emits exactly the `n` success items
`Ok R1, .., Ok Rn` at that position, in order, with no duplication or loss;
a collection with zero sub-reports contributes no item. -/
theorem advertisement_stream_flattening
    (pre post : List (Except AdapterError AdvertisingReport))
    (rep : AdvertisingReport) :
    LEAdapter.advertisement_stream_items (pre ++ Except.ok rep :: post)
      = LEAdapter.advertisement_stream_items pre
        ++ rep.reports.map Except.ok
        ++ LEAdapter.advertisement_stream_items post := by
  induction pre with
  | nil =>
    simp [LEAdapter.advertisement_stream_items, LEAdapter.flattenStep]
  | cons a t ih =>
    simp [LEAdapter.advertisement_stream_items, ih, List.append_assoc]

/-- Claim C4 (code evaluation): `hci_event_stream` executes
`todo!("set HCI Filter to AdvertisingReport")` and panics before the
underlying `unfold` stream is ever constructed, for any transport read
trace — here evaluated at the empty trace. -/
theorem hci_event_stream_panics_on_todo :
    LEAdapter.hci_event_stream []
      = PanicOr.panicked "set HCI Filter to AdvertisingReport" := rfl

/-- Claim C5: the filter stage of `advertising_report_stream` drops every
successfully read event packet whose event code is not LE-Meta: the
`filter_map` closure returns `None` on it, and the stream over any item
list containing it yields exactly the items of the surrounding list,
whatever decoders the codec supplies. -/
theorem non_le_meta_events_dropped
    (metaDecode : List Nat → Except PackError RawMetaEvent)
    (reportDecode : RawMetaEvent → Except PackError AdvertisingReport)
    (ev : EventPacket)
    (pre post : List (Except AdapterError EventPacket))
    (h : ev.event_code ≠ leMetaCode) :
    LEAdapter.advertising_report_filter metaDecode reportDecode (Except.ok ev)
        = none ∧
    LEAdapter.advertising_report_stream_items metaDecode reportDecode
        (pre ++ Except.ok ev :: post)
      = LEAdapter.advertising_report_stream_items metaDecode reportDecode pre
        ++ LEAdapter.advertising_report_stream_items metaDecode reportDecode
             post := by
  have hf : LEAdapter.advertising_report_filter metaDecode reportDecode
      (Except.ok ev) = none := by
    show (if ev.event_code = leMetaCode then
        some (LEAdapter.decodeLeMeta metaDecode reportDecode ev.payload)
      else none) = none
    rw [if_neg h]
  refine ⟨hf, ?_⟩
  unfold LEAdapter.advertising_report_stream_items
  rw [List.filterMap_append, List.filterMap_cons_none hf]

theorem non_le_meta_events_dropped_witness :
    (EventPacket.mk 0 []).event_code ≠ leMetaCode ∧
    (LEAdapter.advertising_report_filter mdFail rdFail
        (Except.ok (EventPacket.mk 0 [])) = none ∧
     LEAdapter.advertising_report_stream_items mdFail rdFail
        ([] ++ Except.ok (EventPacket.mk 0 []) :: [])
       = LEAdapter.advertising_report_stream_items mdFail rdFail []
         ++ LEAdapter.advertising_report_stream_items mdFail rdFail []) :=
  ⟨by decide,
   non_le_meta_events_dropped mdFail rdFail (EventPacket.mk 0 []) [] []
     (by decide)⟩

/-- Claim C6: errors are stream items, never terminators or multiplied: the
filter stage passes an upstream error item through unchanged and the stream
continues with the remaining items; the flattening stage expands an error
item into exactly one error item and continues; and an LE-Meta event whose
payload fails meta-event or report decoding yields exactly one decode-error
item, after which the stream processes the remaining items unaffected. -/
theorem stream_errors_single_items
    (metaDecode : List Nat → Except PackError RawMetaEvent)
    (reportDecode : RawMetaEvent → Except PackError AdvertisingReport)
    (e : AdapterError) (ev : EventPacket) (err : AdapterError)
    (rest : List (Except AdapterError EventPacket))
    (rrest : List (Except AdapterError AdvertisingReport))
    (hcode : ev.event_code = leMetaCode)
    (hfail : LEAdapter.decodeLeMeta metaDecode reportDecode ev.payload
        = Except.error err) :
    LEAdapter.advertising_report_filter metaDecode reportDecode
        (Except.error e) = some (Except.error e) ∧
    LEAdapter.advertising_report_stream_items metaDecode reportDecode
        (Except.error e :: rest)
      = Except.error e
        :: LEAdapter.advertising_report_stream_items metaDecode reportDecode
             rest ∧
    LEAdapter.advertisement_stream_items (Except.error e :: rrest)
      = Except.error e :: LEAdapter.advertisement_stream_items rrest ∧
    LEAdapter.advertising_report_stream_items metaDecode reportDecode
        (Except.ok ev :: rest)
      = Except.error err
        :: LEAdapter.advertising_report_stream_items metaDecode reportDecode
             rest := by
  have hf : LEAdapter.advertising_report_filter metaDecode reportDecode
      (Except.ok ev) = some (Except.error err) := by
    show (if ev.event_code = leMetaCode then
        some (LEAdapter.decodeLeMeta metaDecode reportDecode ev.payload)
      else none) = some (Except.error err)
    rw [if_pos hcode, hfail]
  refine ⟨rfl, ?_, ?_, ?_⟩
  · unfold LEAdapter.advertising_report_stream_items
    exact List.filterMap_cons_some rfl
  · simp [LEAdapter.advertisement_stream_items, LEAdapter.flattenStep]
  · unfold LEAdapter.advertising_report_stream_items
    exact List.filterMap_cons_some hf

theorem stream_errors_single_items_witness :
    (EventPacket.mk leMetaCode []).event_code = leMetaCode ∧
    LEAdapter.decodeLeMeta mdFail rdFail (EventPacket.mk leMetaCode []).payload
      = Except.error
          (AdapterError.streamError (StreamErr.eventError (PackError.mk 0))) ∧
    (LEAdapter.advertising_report_filter mdFail rdFail
        (Except.error AdapterError.badParameter)
        = some (Except.error AdapterError.badParameter) ∧
     LEAdapter.advertising_report_stream_items mdFail rdFail
        (Except.error AdapterError.badParameter :: [])
       = Except.error AdapterError.badParameter
         :: LEAdapter.advertising_report_stream_items mdFail rdFail [] ∧
     LEAdapter.advertisement_stream_items
        (Except.error AdapterError.badParameter :: [])
       = Except.error AdapterError.badParameter
         :: LEAdapter.advertisement_stream_items [] ∧
     LEAdapter.advertising_report_stream_items mdFail rdFail
        (Except.ok (EventPacket.mk leMetaCode []) :: [])
       = Except.error
            (AdapterError.streamError (StreamErr.eventError (PackError.mk 0)))
         :: LEAdapter.advertising_report_stream_items mdFail rdFail []) :=
  ⟨rfl, rfl,
   stream_errors_single_items mdFail rdFail AdapterError.badParameter
     (EventPacket.mk leMetaCode [])
     (AdapterError.streamError (StreamErr.eventError (PackError.mk 0)))
     [] [] rfl rfl⟩

/-- Claim C7: every operation validates the response's status field before
using any payload: whenever the decoded response has a non-zero status, the
result is the controller error carrying that raw status code — for the
payload-returning operations `get_advertising_tx_power` and `get_rand` no
payload value is returned, and likewise for every unit-returning command
operation. -/
theorem status_checked_before_payload
    (rt : TxPowerResponse) (rr : RandResponse) (rs : StatusResponse)
    (b e d : Bool) (sp : ScanParameters) (ap : AdvertisingParameters)
    (data : List Nat)
    (hrt : rt.status ≠ 0) (hrr : rr.status ≠ 0) (hrs : rs.status ≠ 0)
    (hdata : data.length ≤ MAX_ADV_LEN) :
    (LEAdapter.get_advertising_tx_power (Except.ok rt)).1
        = Except.error (AdapterError.controllerStatus rt.status) ∧
    (LEAdapter.get_rand (Except.ok rr)).1
        = Except.error (AdapterError.controllerStatus rr.status) ∧
    (LEAdapter.set_scan_enable (Except.ok rs) e d).1
        = Except.error (AdapterError.controllerStatus rs.status) ∧
    (LEAdapter.set_scan_parameters (Except.ok rs) sp).1
        = Except.error (AdapterError.controllerStatus rs.status) ∧
    (LEAdapter.set_advertising_enable (Except.ok rs) b).1
        = Except.error (AdapterError.controllerStatus rs.status) ∧
    (LEAdapter.set_advertising_parameters (Except.ok rs) ap).1
        = Except.error (AdapterError.controllerStatus rs.status) ∧
    (LEAdapter.set_advertising_data (Except.ok rs) data).1
        = Except.error (AdapterError.controllerStatus rs.status) := by
  have hst := statusError_nonzero rt.status hrt
  have hsr := statusError_nonzero rr.status hrr
  have hss := statusError_nonzero rs.status hrs
  have hnot : ¬ data.length > MAX_ADV_LEN := Nat.not_lt.mpr hdata
  refine ⟨?_, ?_, ?_, ?_, ?_, ?_, ?_⟩
  · show (match statusError rt.status with
      | Except.error e => Except.error e
      | Except.ok _ => Except.ok rt.power_level) = _
    rw [hst]
  · show (match statusError rr.status with
      | Except.error e => Except.error e
      | Except.ok _ => Except.ok rr.random_bytes) = _
    rw [hsr]
  · exact hss
  · exact hss
  · exact hss
  · exact hss
  · show (LEAdapter.set_advertising_data (Except.ok rs) data).1 = _
    unfold LEAdapter.set_advertising_data
    rw [if_neg hnot]
    exact hss

theorem status_checked_before_payload_witness :
    (TxPowerResponse.mk 1 0).status ≠ 0 ∧ rr1.status ≠ 0 ∧
    (StatusResponse.mk 1).status ≠ 0 ∧
    ([] : List Nat).length ≤ MAX_ADV_LEN ∧
    ((LEAdapter.get_advertising_tx_power (Except.ok (TxPowerResponse.mk 1 0))).1
        = Except.error
            (AdapterError.controllerStatus (TxPowerResponse.mk 1 0).status) ∧
     (LEAdapter.get_rand (Except.ok rr1)).1
        = Except.error (AdapterError.controllerStatus rr1.status) ∧
     (LEAdapter.set_scan_enable (Except.ok ⟨1⟩) true true).1
        = Except.error (AdapterError.controllerStatus (StatusResponse.mk 1).status) ∧
     (LEAdapter.set_scan_parameters (Except.ok ⟨1⟩) ⟨[]⟩).1
        = Except.error (AdapterError.controllerStatus (StatusResponse.mk 1).status) ∧
     (LEAdapter.set_advertising_enable (Except.ok ⟨1⟩) true).1
        = Except.error (AdapterError.controllerStatus (StatusResponse.mk 1).status) ∧
     (LEAdapter.set_advertising_parameters (Except.ok ⟨1⟩) ⟨[]⟩).1
        = Except.error (AdapterError.controllerStatus (StatusResponse.mk 1).status) ∧
     (LEAdapter.set_advertising_data (Except.ok ⟨1⟩) []).1
        = Except.error (AdapterError.controllerStatus (StatusResponse.mk 1).status)) :=
  ⟨by decide, by decide, by decide, by decide,
   status_checked_before_payload (TxPowerResponse.mk 1 0) rr1 ⟨1⟩
     true true true ⟨[]⟩ ⟨[]⟩ [] (by decide) (by decide) (by decide) (by decide)⟩

/-- Claim C8: whenever the controller answers `get_rand` with a success
(zero) status, the operation returns exactly the response's random block,
which has length `RAND_LEN` = 8, whatever byte values the controller
reported. -/
theorem get_rand_returns_eight_bytes (r : RandResponse) (h : r.status = 0) :
    (LEAdapter.get_rand (Except.ok r)).1 = Except.ok r.random_bytes ∧
    r.random_bytes.length = RAND_LEN ∧ RAND_LEN = 8 := by
  refine ⟨?_, r.random_bytes_len, rfl⟩
  show (match statusError r.status with
    | Except.error e => Except.error e
    | Except.ok _ => Except.ok r.random_bytes) = _
  rw [h, statusError_zero]

theorem get_rand_returns_eight_bytes_witness :
    rr0.status = 0 ∧
    ((LEAdapter.get_rand (Except.ok rr0)).1 = Except.ok rr0.random_bytes ∧
     rr0.random_bytes.length = RAND_LEN ∧ RAND_LEN = 8) :=
  ⟨by decide, get_rand_returns_eight_bytes rr0 (by decide)⟩

/-- Claim C9: each method of the `Advertiser` capability implementation for
`LEAdapter` returns exactly the result of the corresponding inherent
`LEAdapter` method on the same adapter responses and argument; the facade
adds no behavior of its own. -/
theorem advertiser_facade_delegates
    (resp1 resp2 resp3 : Except AdapterError StatusResponse)
    (b : Bool) (p : AdvertisingParameters) (data : List Nat) :
    Advertiser.set_advertising_enable resp1 b
        = LEAdapter.set_advertising_enable resp1 b ∧
    Advertiser.set_advertising_parameters resp2 p
        = LEAdapter.set_advertising_parameters resp2 p ∧
    Advertiser.set_advertising_data resp3 data
        = LEAdapter.set_advertising_data resp3 data :=
  ⟨rfl, rfl, rfl⟩

/-- Claim C10: `LEAdapter` operations are deterministic: two runs of the
same operation with the same arguments against adapters delivering
identical responses produce identical results and identical command
transcripts; the commands sent depend only on the operation and its
arguments, never on the responses; and the stream stages produce identical
items from identical event sequences. -/
theorem le_adapter_operations_deterministic
    (op : Operation) (r r' r'' : AdapterResponses)
    (metaDecode : List Nat → Except PackError RawMetaEvent)
    (reportDecode : RawMetaEvent → Except PackError AdvertisingReport)
    (es es' : List (Except AdapterError EventPacket))
    (h : r = r') (hes : es = es') :
    runOperation op r = runOperation op r' ∧
    (runOperation op r).2 = (runOperation op r'').2 ∧
    LEAdapter.advertising_report_stream_items metaDecode reportDecode es
      = LEAdapter.advertising_report_stream_items metaDecode reportDecode es' := by
  subst h
  subst hes
  refine ⟨rfl, ?_, rfl⟩
  cases op with
  | getAdvertisingTxPower => rfl
  | setScanEnable e d => rfl
  | setScanParameters p => rfl
  | setAdvertisingEnable b => rfl
  | setAdvertisingParameters p => rfl
  | getRand => rfl
  | setAdvertisingData data =>
    show (LEAdapter.set_advertising_data r.adv_data data).2
      = (LEAdapter.set_advertising_data r''.adv_data data).2
    unfold LEAdapter.set_advertising_data
    by_cases hl : data.length > MAX_ADV_LEN
    · rw [if_pos hl, if_pos hl]
    · rw [if_neg hl, if_neg hl]

theorem le_adapter_operations_deterministic_witness :
    resp0 = resp0 ∧ ([] : List (Except AdapterError EventPacket)) = [] ∧
    (runOperation Operation.getRand resp0 = runOperation Operation.getRand resp0 ∧
     (runOperation Operation.getRand resp0).2
        = (runOperation Operation.getRand resp0).2 ∧
     LEAdapter.advertising_report_stream_items mdFail rdFail []
        = LEAdapter.advertising_report_stream_items mdFail rdFail []) :=
  ⟨rfl, rfl,
   le_adapter_operations_deterministic Operation.getRand resp0 resp0 resp0
     mdFail rdFail [] [] rfl rfl⟩

end Btle
